import Mathlib

/-
Shallow embedding of the beacon-api-wrapper repository (Go).
The main implementation lives in cmd/main.go; an older variant of the same
program (unnamed source part_001) is embedded in the Variant namespace.
All uint64 quantities are modelled as Nat with explicit reduction mod 2^64
where the Go code can wrap.
-/

namespace BeaconApiWrapper

/- Constants from cmd/main.go. -/

def secondsPerSlot : Nat := 12

def slotsPerEpoch : Nat := 32

def retentionPeriodDefault : Nat := 3

/- Modulus of the Go uint64 type. -/

def uint64Mod : Nat := 2 ^ 64

/- Go uint64 subtraction a - b, wrapping modulo 2^64. -/

def sub64 (a b : Nat) : Nat := (a % uint64Mod + (uint64Mod - b % uint64Mod)) % uint64Mod

/- Go uint64 multiplication, wrapping modulo 2^64. -/

def mul64 (a b : Nat) : Nat := (a * b) % uint64Mod

/- String primitives are stated over the character list s.data so that they
compute by structural recursion.  Identifiers handled by the program are
ASCII, where Go byte length and character count agree. -/

def goLen (s : String) : Nat := s.data.length

def goIsDigit (c : Char) : Bool := '0' ≤ c && c ≤ '9'

/- Go strconv.ParseUint(s, 10, 64): a nonempty string of ASCII decimal digits
whose value fits in 64 bits; no sign, no prefixes, no underscores. -/

def parseUint64 (s : String) : Option Nat :=
  if goLen s == 0 then none
  else if s.data.all goIsDigit then
    let v := s.data.foldl (fun a c => a * 10 + (c.toNat - 48)) 0
    if v < uint64Mod then some v else none
  else none

/- Go encoding/hex digit set: 0-9, a-f, A-F. -/

def isGoHexDigit (c : Char) : Bool :=
  goIsDigit c || ('a' ≤ c && c ≤ 'f') || ('A' ≤ c && c ≤ 'F')

/- Go hex.DecodeString(s) succeeds iff s has even length and every character
is a hexadecimal digit.  The source applies it to the WHOLE identifier,
including the 0x prefix. -/

def hexDecodeOk (s : String) : Bool :=
  goLen s % 2 == 0 && s.data.all isGoHexDigit

/- Go strings.HasPrefix(s, "0x"). -/

def hasPrefix0x (s : String) : Bool := s.data.take 2 == ['0', 'x']

/- isHash from cmd/main.go: length 66, prefix 0x, and hex.DecodeString of the
full string (prefix included) succeeds. -/

def isHash (s : String) : Bool :=
  goLen s == 66 && hasPrefix0x s && hexDecodeOk s

def knownIds : List String := ["genesis", "finalized", "head"]

def isKnownIdentifier (id : String) : Bool := knownIds.contains id

/- Error cases of slotAge in cmd/main.go. -/

inductive SlotErr
  | parseError
  | futureSlot
  deriving DecidableEq, Repr

/- Current slot as computed inside slotAge: uint64 wall-clock minus the genesis
anchor (wrapping uint64 subtraction), divided by secondsPerSlot (truncating). -/

def curSlot (slot0Timestamp now : Nat) : Nat :=
  sub64 now slot0Timestamp / secondsPerSlot

/- slotAge from cmd/main.go. -/

def slotAge (slot0Timestamp now : Nat) (id : String) : Except SlotErr Nat :=
  match parseUint64 id with
  | none => .error .parseError
  | some slot =>
    if curSlot slot0Timestamp now < slot then .error .futureSlot
    else .ok (curSlot slot0Timestamp now - slot)

/- Observable outcome of the blob-sidecars handler: a locally produced HTTP
error, the locally produced empty list, or a reverse-proxy to upstream. -/

inductive BlobResponse
  | httpError (status : Nat) (msg : String)
  | emptyList
  | proxy
  deriving DecidableEq, Repr

/- handleBlobSidecarsRequest from cmd/main.go, as a function of the retention
period flag, the genesis anchor, the wall clock and the path parameter. -/

def handleBlobSidecarsRequest (retentionPeriod slot0Timestamp now : Nat)
    (id : String) : BlobResponse :=
  if isHash id then .httpError 500 "Block hash is not supported yet"
  else if isKnownIdentifier id then .httpError 500 (id ++ " is not supported yet")
  else
    match slotAge slot0Timestamp now id with
    | .error _ => .httpError 400 "Invalid block ID"
    | .ok age =>
      if age > mul64 retentionPeriod slotsPerEpoch then .emptyList
      else .proxy

/- Classification order of the handler: Hash checked first, then Symbolic,
and only otherwise is the identifier treated as a slot number. -/

inductive IdClass
  | hash
  | symbolic
  | slot
  deriving DecidableEq, Repr

def classify (id : String) : IdClass :=
  if isHash id then .hash
  else if isKnownIdentifier id then .symbolic
  else .slot

/- The identifier of the C1 scenario: 0x followed by 64 zero hex digits. -/

def zeroHashId : String :=
  "0x0000000000000000000000000000000000000000000000000000000000000000"

/- Observable parts of a locally synthesized HTTP response. -/

structure HttpResponse where
  status : Nat
  contentType : Option String
  body : String
  deriving DecidableEq, Repr

/- Serialization of the emptySidecarList value (a struct with an empty Data
slice under the json tag data); Go json.Encoder.Encode appends a newline. -/

def emptySidecarListJson : String := "\x7b\"data\":[]\x7d\n"

/- The response written by each local branch of the handler: http.Error writes
the message with a text/plain content type, the empty-list branch writes the
fixed JSON payload with status 200 (WriteHeader is never called explicitly),
and the proxy branch produces no local response. -/

def renderLocal : BlobResponse → Option HttpResponse
  | .httpError status msg =>
    some { status := status, contentType := some "text/plain; charset=utf-8",
           body := msg ++ "\n" }
  | .emptyList =>
    some { status := 200, contentType := some "application/json",
           body := emptySidecarListJson }
  | .proxy => none

/- queryGenesisTime from cmd/main.go.  The HTTP GET and the JSON decoding are
external effects, modelled as oracles: network is the response body when the
GET succeeds, and decodeGenesisTime extracts the genesis_time string field
when the body is well-formed JSON of the expected shape.  Each failure is
fatal in the source (log.Fatalf); here it becomes an error value carrying the
corresponding message. -/

def queryGenesisTime (network : Option String)
    (decodeGenesisTime : String → Option String) : Except String Nat :=
  match network with
  | none => .error "Error fetching data"
  | some body =>
    match decodeGenesisTime body with
    | none => .error "Error parsing JSON"
    | some gtStr =>
      match parseUint64 gtStr with
      | none => .error "Error parsing genesis time"
      | some gt => .ok gt

/- Startup control flow of main in cmd/main.go: queryGenesisTime runs first
and a failure exits the process before net.Listen is ever reached; a bind
failure exits after the fetch; otherwise the server starts serving with the
populated genesis anchor. -/

inductive StartupOutcome
  | fatalBeforeListen (msg : String)
  | fatalAtListen (msg : String)
  | serving (slot0Timestamp : Nat)
  deriving DecidableEq, Repr

def mainStartup (genesisFetch : Except String Nat)
    (bindResult : Except String Unit) : StartupOutcome :=
  match genesisFetch with
  | .error e => .fatalBeforeListen e
  | .ok gt =>
    match bindResult with
    | .error e => .fatalAtListen e
    | .ok _ => .serving gt

end BeaconApiWrapper

namespace BeaconApiWrapper.Variant

/- The older variant of the program (unnamed source part_001): the genesis
timestamp is the hardcoded Sepolia constant, ages are measured in seconds,
and the retention comparison uses the compile-time default constant rather
than the retentionPeriod variable set by the -r flag. -/

def slot0Timestamp : Nat := 1655733600

def retentionPeriodDefault : Nat := 3600 * 3

/- slotAge from the variant: the slot timestamp is genesis plus slot times 12
(wrapping uint64 multiplication and addition); a slot timestamp in the future
is an error, otherwise the age is the elapsed seconds. -/

def slotAge (now : Nat) (id : String) : Except SlotErr Nat :=
  match parseUint64 id with
  | none => .error .parseError
  | some slot =>
    let slotTime := (slot0Timestamp + slot * 12) % uint64Mod
    if now < slotTime then .error .futureSlot
    else .ok (now - slotTime)

/- handleBlobSidecarsRequest from the variant: identical identifier checks,
but the retention comparison reads retentionPeriodDefault, not the
retentionPeriod flag value (which is passed in here to expose the
difference). -/

def handleBlobSidecarsRequest (retentionPeriod now : Nat) (id : String) :
    BlobResponse :=
  if isHash id then .httpError 500 "Block hash is not supported yet"
  else if isKnownIdentifier id then .httpError 500 (id ++ " is not supported yet")
  else
    match slotAge now id with
    | .error _ => .httpError 400 "Invalid block ID"
    | .ok age =>
      if age > retentionPeriodDefault then .emptyList
      else .proxy

end BeaconApiWrapper.Variant

namespace BeaconApiWrapper

/-- C1: the claim says a 66-character 0x-prefixed identifier whose remaining 64
characters are hex digits is classified Hash and answered with the 500-class
unsupported-feature error.  The code applies hex.DecodeString to the whole
string including the 0x prefix, where x is not a hex digit, so isHash returns
false and the request instead falls through to the numeric parse, which fails,
yielding the 400 Invalid block ID error.  This theorem evaluates the code at
the failing input. -/
theorem c1_isHash_rejects_valid_hash (retentionPeriod slot0Timestamp now : Nat) :
    isHash zeroHashId = false ∧
    hexDecodeOk zeroHashId = false ∧
    goLen zeroHashId = 66 ∧
    hasPrefix0x zeroHashId = true ∧
    handleBlobSidecarsRequest retentionPeriod slot0Timestamp now zeroHashId =
      .httpError 400 "Invalid block ID" := by
  refine ⟨by decide, by decide, by decide, by decide, ?_⟩
  have hp : parseUint64 zeroHashId = none := by decide
  simp [handleBlobSidecarsRequest, slotAge, hp, isHash, isKnownIdentifier, knownIds,
    hexDecodeOk]
  decide

/-- C5: with genesis time 1600000000, now 1200 seconds later (100 slots) and a
retention window of 3 epochs of 32 slots each (96 slots), slot 0 has age 100
and gets the empty list, while slot 10 has age 90 and is proxied; the current
slot is the truncating division of now minus genesis by 12. -/
theorem c5_slot_time_scenario :
    (∀ g now, g ≤ now → now < uint64Mod → curSlot g now = (now - g) / secondsPerSlot) ∧
    secondsPerSlot = 12 ∧
    mul64 retentionPeriodDefault slotsPerEpoch = 96 ∧
    curSlot 1600000000 1600001200 = 100 ∧
    slotAge 1600000000 1600001200 "0" = .ok 100 ∧
    slotAge 1600000000 1600001200 "10" = .ok 90 ∧
    handleBlobSidecarsRequest 3 1600000000 1600001200 "0" = .emptyList ∧
    handleBlobSidecarsRequest 3 1600000000 1600001200 "10" = .proxy := by
  refine ⟨?_, by decide, by decide, by decide, by rfl, by rfl, by decide, by decide⟩
  intro g now hle hlt
  unfold curSlot sub64
  congr 1
  have hg : g % uint64Mod ≤ now := le_trans (Nat.mod_le g uint64Mod) hle
  have h1 : now % uint64Mod = now := Nat.mod_eq_of_lt hlt
  rw [h1]
  have h2 : now + (uint64Mod - g % uint64Mod) = (now - g % uint64Mod) + uint64Mod := by
    have : g % uint64Mod ≤ uint64Mod := le_of_lt (Nat.mod_lt g (by decide))
    omega
  rw [h2, Nat.add_mod_right]
  have h3 : now - g % uint64Mod < uint64Mod := lt_of_le_of_lt (Nat.sub_le _ _) hlt
  rw [Nat.mod_eq_of_lt h3]
  have h4 : g % uint64Mod = g := Nat.mod_eq_of_lt (lt_of_le_of_lt hle hlt)
  rw [h4]

/-- C5 witness: the general current-slot formula instantiated at the scenario
inputs. -/
theorem c5_slot_time_scenario_witness :
    curSlot 1600000000 1600001200 = (1600001200 - 1600000000) / secondsPerSlot :=
  c5_slot_time_scenario.1 1600000000 1600001200 (by decide) (by decide)

/- Reduction of the handler on a numeric slot identifier inside the current
slot range: the decision is the retention comparison. -/

lemma handle_slot_reduction (retentionPeriod slot0Timestamp now : Nat) (id : String)
    (s : Nat) (hH : isHash id = false) (hK : isKnownIdentifier id = false)
    (hP : parseUint64 id = some s) (hle : s ≤ curSlot slot0Timestamp now) :
    handleBlobSidecarsRequest retentionPeriod slot0Timestamp now id =
      if mul64 retentionPeriod slotsPerEpoch < curSlot slot0Timestamp now - s then
        .emptyList
      else .proxy := by
  unfold handleBlobSidecarsRequest slotAge
  rw [hH, hK, hP]
  simp only [Bool.false_eq_true, if_false]
  rw [if_neg (by omega)]

/- Reduction of the handler on an identifier that fails the numeric parse. -/

lemma handle_parse_error (retentionPeriod slot0Timestamp now : Nat) (id : String)
    (hH : isHash id = false) (hK : isKnownIdentifier id = false)
    (hP : parseUint64 id = none) :
    handleBlobSidecarsRequest retentionPeriod slot0Timestamp now id =
      .httpError 400 "Invalid block ID" := by
  unfold handleBlobSidecarsRequest slotAge
  rw [hH, hK, hP]
  simp

/-- C2: for a numeric slot identifier whose age is exactly the retention
window (retention epochs times slots per epoch), the decision is Proxy; the
empty list is produced exactly when the age strictly exceeds the window, so
age equal to window plus one yields EmptyList. -/
theorem c2_retention_boundary_inclusive (retentionPeriod slot0Timestamp now : Nat)
    (id : String) (s : Nat) (hH : isHash id = false) (hK : isKnownIdentifier id = false)
    (hP : parseUint64 id = some s) (hle : s ≤ curSlot slot0Timestamp now) :
    (curSlot slot0Timestamp now - s = mul64 retentionPeriod slotsPerEpoch →
      handleBlobSidecarsRequest retentionPeriod slot0Timestamp now id = .proxy) ∧
    (curSlot slot0Timestamp now - s = mul64 retentionPeriod slotsPerEpoch + 1 →
      handleBlobSidecarsRequest retentionPeriod slot0Timestamp now id = .emptyList) ∧
    (handleBlobSidecarsRequest retentionPeriod slot0Timestamp now id = .emptyList ↔
      mul64 retentionPeriod slotsPerEpoch < curSlot slot0Timestamp now - s) := by
  rw [handle_slot_reduction retentionPeriod slot0Timestamp now id s hH hK hP hle]
  refine ⟨fun hEq => ?_, fun hEq => ?_, ?_⟩
  · rw [if_neg (by omega)]
  · rw [if_pos (by omega)]
  · constructor
    · intro hres
      by_contra hlt
      rw [if_neg hlt] at hres
      exact BlobResponse.noConfusion hres
    · intro hlt
      rw [if_pos hlt]

/-- C2 witness: with genesis 1600000000, clock 1152 seconds later (96 slots)
and retention 3 epochs, slot 0 has age exactly 96 and is proxied. -/
theorem c2_retention_boundary_inclusive_witness :
    handleBlobSidecarsRequest 3 1600000000 1600001152 "0" = .proxy :=
  (c2_retention_boundary_inclusive 3 1600000000 1600001152 "0" 0
    (by decide) (by decide) (by rfl) (by decide)).1 (by decide)

/-- C3: a numeric slot identifier strictly greater than the current slot fails
with the 400-class Invalid block ID error; slotAge reports the future-slot
error and the request is neither proxied nor answered with the empty list. -/
theorem c3_future_slot_client_error (retentionPeriod slot0Timestamp now : Nat)
    (id : String) (s : Nat) (hH : isHash id = false) (hK : isKnownIdentifier id = false)
    (hP : parseUint64 id = some s) (hfut : curSlot slot0Timestamp now < s) :
    handleBlobSidecarsRequest retentionPeriod slot0Timestamp now id =
      .httpError 400 "Invalid block ID" ∧
    slotAge slot0Timestamp now id = .error .futureSlot := by
  have hage : slotAge slot0Timestamp now id = .error .futureSlot := by
    unfold slotAge
    rw [hP]
    simp [hfut]
  refine ⟨?_, hage⟩
  unfold handleBlobSidecarsRequest
  rw [hH, hK, hage]
  simp

/-- C3 witness: at the genesis instant the current slot is 0, so requesting
slot 100 fails with the 400-class error. -/
theorem c3_future_slot_client_error_witness :
    handleBlobSidecarsRequest 3 1600000000 1600000000 "100" =
      .httpError 400 "Invalid block ID" :=
  (c3_future_slot_client_error 3 1600000000 1600000000 "100" 100
    (by decide) (by decide) (by rfl) (by decide)).1

/-- C6: the genesis fetch precedes the listener bind; any fetch failure ends
startup before the listener is bound, and the process only reaches the serving
state with the genesis anchor populated from a successful fetch. -/
theorem c6_fetch_before_listen (network : Option String)
    (decodeGenesisTime : String → Option String) (bindResult : Except String Unit) :
    (∀ e, queryGenesisTime network decodeGenesisTime = .error e →
      mainStartup (queryGenesisTime network decodeGenesisTime) bindResult =
        .fatalBeforeListen e) ∧
    (∀ gt, mainStartup (queryGenesisTime network decodeGenesisTime) bindResult =
        .serving gt →
      queryGenesisTime network decodeGenesisTime = .ok gt) := by
  constructor
  · intro e he
    rw [he]
    rfl
  · intro gt hgt
    cases hq : queryGenesisTime network decodeGenesisTime with
    | error e =>
      rw [hq] at hgt
      exact absurd hgt (by simp [mainStartup])
    | ok v =>
      rw [hq] at hgt
      cases bindResult with
      | error e => exact absurd hgt (by simp [mainStartup])
      | ok u =>
        simp only [mainStartup, StartupOutcome.serving.injEq] at hgt
        rw [hgt]

/-- C6 witness: with the network fetch failing, startup ends fatally before
the listener is bound even though the bind itself would have succeeded. -/
theorem c6_fetch_before_listen_witness :
    mainStartup (queryGenesisTime none (fun _ => none)) (.ok ()) =
      .fatalBeforeListen "Error fetching data" :=
  (c6_fetch_before_listen none (fun _ => none) (.ok ())).1
    "Error fetching data" (by rfl)

/-- C7: whenever the retention policy decides EmptyList, the local response
has status 200, content type application/json and the fixed empty-list JSON
payload. -/
theorem c7_empty_list_response (retentionPeriod slot0Timestamp now : Nat)
    (id : String)
    (h : handleBlobSidecarsRequest retentionPeriod slot0Timestamp now id = .emptyList) :
    renderLocal (handleBlobSidecarsRequest retentionPeriod slot0Timestamp now id) =
      some { status := 200, contentType := some "application/json",
             body := emptySidecarListJson } := by
  rw [h]
  rfl

/-- C7 witness: the out-of-window scenario request for slot 0 produces the
empty-list response with status 200 and the JSON content type. -/
theorem c7_empty_list_response_witness :
    renderLocal (handleBlobSidecarsRequest 3 1600000000 1600001200 "0") =
      some { status := 200, contentType := some "application/json",
             body := emptySidecarListJson } :=
  c7_empty_list_response 3 1600000000 1600001200 "0" (by decide)

/-- C8: an identifier that is neither Hash nor Symbolic and fails the base-10
unsigned parse is rejected with the 400-class Invalid block ID error, which is
distinct from every 500-class unsupported-identifier rejection. -/
theorem c8_malformed_identifier (retentionPeriod slot0Timestamp now : Nat)
    (id : String) (hH : isHash id = false) (hK : isKnownIdentifier id = false)
    (hP : parseUint64 id = none) :
    handleBlobSidecarsRequest retentionPeriod slot0Timestamp now id =
      .httpError 400 "Invalid block ID" ∧
    (∀ m, handleBlobSidecarsRequest retentionPeriod slot0Timestamp now id ≠
      .httpError 500 m) := by
  have h400 := handle_parse_error retentionPeriod slot0Timestamp now id hH hK hP
  refine ⟨h400, fun m hcontra => ?_⟩
  rw [h400] at hcontra
  exact absurd (BlobResponse.httpError.inj hcontra).1 (by decide)

/-- C8 witness: the identifier abc is not a hash, not symbolic and not a
number, and is answered with the 400-class error. -/
theorem c8_malformed_identifier_witness :
    handleBlobSidecarsRequest 3 1600000000 1600001200 "abc" =
      .httpError 400 "Invalid block ID" :=
  (c8_malformed_identifier 3 1600000000 1600001200 "abc"
    (by decide) (by decide) (by decide)).1

/-- C4: each of genesis, finalized and head is classified Symbolic (the Hash
and Symbolic checks precede any numeric parse, so the outcome is independent
of the clock, the genesis anchor and the retention flag) and the request is
rejected with the 500-class not-yet-supported error. -/
theorem c4_symbolic_rejected (retentionPeriod slot0Timestamp now : Nat) :
    classify "genesis" = .symbolic ∧
    classify "finalized" = .symbolic ∧
    classify "head" = .symbolic ∧
    handleBlobSidecarsRequest retentionPeriod slot0Timestamp now "genesis" =
      .httpError 500 "genesis is not supported yet" ∧
    handleBlobSidecarsRequest retentionPeriod slot0Timestamp now "finalized" =
      .httpError 500 "finalized is not supported yet" ∧
    handleBlobSidecarsRequest retentionPeriod slot0Timestamp now "head" =
      .httpError 500 "head is not supported yet" := by
  refine ⟨by decide, by decide, by decide, ?_, ?_, ?_⟩ <;>
    · unfold handleBlobSidecarsRequest
      rw [show isHash _ = false from by decide,
        show isKnownIdentifier _ = true from by decide]
      rfl

/-- C9 counterexample: with the clock one second before genesis, the slot
identifier 18446744073709551615 parses as a uint64, yet slotAge reports the
future-slot error and the request fails with the 400-class error rather than
being accepted with an age beyond the window, so a parseable requested slot is
not always accepted under clock-before-genesis wrap-around. -/
theorem c9_not_all_slots_accepted :
    1599999999 < 1600000000 ∧
    parseUint64 "18446744073709551615" = some (uint64Mod - 1) ∧
    slotAge 1600000000 1599999999 "18446744073709551615" = .error .futureSlot ∧
    handleBlobSidecarsRequest 3 1600000000 1599999999 "18446744073709551615" =
      .httpError 400 "Invalid block ID" :=
  ⟨by decide, by decide, by rfl, by decide⟩

/-- C9 amended: when the clock is earlier than the genesis anchor, the
unsigned subtraction wraps modulo 2 to the 64, making the current slot equal
to (now + 2 to the 64 - genesis) / 12, an astronomically large value; every
parseable requested slot NOT EXCEEDING that wrapped current slot is accepted
with age equal to the difference, and in particular any slot of realistic
magnitude (at most 2 to the 50, with the genesis-clock gap and the retention
window similarly bounded) yields EmptyList instead of a failure; slots above
the wrapped current slot still fail as future slots. -/
theorem c9_wraparound_amended (retentionPeriod slot0Timestamp now : Nat)
    (id : String) (s : Nat) (hH : isHash id = false)
    (hK : isKnownIdentifier id = false) (hP : parseUint64 id = some s)
    (hng : now < slot0Timestamp) (hg : slot0Timestamp < uint64Mod) :
    curSlot slot0Timestamp now =
      (now + uint64Mod - slot0Timestamp) / secondsPerSlot ∧
    (s ≤ curSlot slot0Timestamp now →
      slotAge slot0Timestamp now id = .ok (curSlot slot0Timestamp now - s)) ∧
    (s ≤ 2 ^ 50 → slot0Timestamp - now ≤ 2 ^ 50 →
      mul64 retentionPeriod slotsPerEpoch ≤ 2 ^ 50 →
      handleBlobSidecarsRequest retentionPeriod slot0Timestamp now id = .emptyList) := by
  have hnow : now < uint64Mod := lt_trans hng hg
  have hcur : curSlot slot0Timestamp now =
      (now + uint64Mod - slot0Timestamp) / secondsPerSlot := by
    unfold curSlot sub64
    rw [Nat.mod_eq_of_lt hnow, Nat.mod_eq_of_lt hg]
    have h3 : now + (uint64Mod - slot0Timestamp) < uint64Mod := by omega
    rw [Nat.mod_eq_of_lt h3]
    congr 1
    omega
  have hM : uint64Mod = 18446744073709551616 := by decide
  refine ⟨hcur, fun hle => ?_, fun hs hgap hw => ?_⟩
  · unfold slotAge
    rw [hP]
    show (if curSlot slot0Timestamp now < s then Except.error SlotErr.futureSlot
      else Except.ok (curSlot slot0Timestamp now - s)) = _
    rw [if_neg (by omega)]
  · have hbig : 1537134847816892416 ≤ curSlot slot0Timestamp now := by
      rw [hcur]
      calc 1537134847816892416 = (uint64Mod - 2 ^ 50) / secondsPerSlot := by decide
        _ ≤ (now + uint64Mod - slot0Timestamp) / secondsPerSlot :=
          Nat.div_le_div_right (by omega)
    have hle : s ≤ curSlot slot0Timestamp now := by omega
    rw [handle_slot_reduction retentionPeriod slot0Timestamp now id s hH hK hP hle]
    rw [if_pos (by omega)]

/-- C9 witness: one second before genesis, requesting slot 5 with retention 3
epochs is accepted by the wrapped arithmetic and answered with the empty
list. -/
theorem c9_wraparound_amended_witness :
    handleBlobSidecarsRequest 3 1600000000 1599999999 "5" = .emptyList :=
  (c9_wraparound_amended 3 1600000000 1599999999 "5" 5
    (by decide) (by decide) (by rfl) (by decide) (by decide)).2.2
    (by decide) (by decide) (by decide)

end BeaconApiWrapper

namespace BeaconApiWrapper.Variant

/-- C10: in the variant implementation the retention decision ignores the -r
flag entirely: two runs differing only in the flag value give identical
responses for every request at every clock time, and on the slot path the
decision compares the age against the compile-time default constant. -/
theorem c10_variant_flag_independent (r1 r2 now : Nat) (id : String) :
    handleBlobSidecarsRequest r1 now id = handleBlobSidecarsRequest r2 now id ∧
    (∀ age, isHash id = false → isKnownIdentifier id = false →
      slotAge now id = .ok age →
      (handleBlobSidecarsRequest r1 now id = .emptyList ↔
        retentionPeriodDefault < age)) := by
  refine ⟨rfl, fun age hH hK hS => ?_⟩
  unfold handleBlobSidecarsRequest
  rw [hH, hK, hS]
  simp only [Bool.false_eq_true, if_false, gt_iff_lt]
  constructor
  · intro hres
    by_contra hlt
    rw [if_neg hlt] at hres
    exact BlobResponse.noConfusion hres
  · intro hlt
    rw [if_pos hlt]

/-- C10 witness: 10801 seconds after the Sepolia genesis, slot 0 is one
second outside the default window, and the variant returns the empty list
regardless of the flag value used for the run. -/
theorem c10_variant_flag_independent_witness :
    handleBlobSidecarsRequest 5 1655744401 "0" = .emptyList :=
  ((c10_variant_flag_independent 5 7 1655744401 "0").2 10801
    (by decide) (by decide) (by rfl)).mpr (by decide)

end BeaconApiWrapper.Variant
